import Mathlib

/-!
Verification development for the DimiCheck service worker
(src/service-worker.js): cache lifecycle, fetch routing, and the
timetable notification scheduler. Each definition is a shallow
embedding of the corresponding function in the source file.
-/

namespace DimiCheck

/-! ## Constants (service-worker.js lines 1-41) -/

def CACHE_VERSION : String := "v4"

def STATIC_CACHE : String := "dimicheck-static-" ++ CACHE_VERSION

def RUNTIME_CACHE : String := "dimicheck-runtime-" ++ CACHE_VERSION

def TIMETABLE_META_CACHE : String := "dimicheck-timetable-meta"

def PRECACHE_URLS : List String :=
  ["/", "/login.html", "/user.html", "/my.html", "/schoollife.html",
   "/routine.html", "/enter_pin.html", "/404.html", "/manifest.webmanifest",
   "/main.css", "/js/preferences.js", "/js/notifications.js",
   "/js/my-page.js", "/js/etc.js", "/js/info.js", "/js/magnet.js",
   "/js/reset.js", "/js/storage.js", "/js/time.js", "/js/pwa.js",
   "/src/infoicn.png", "/src/dimicheck_templogo.png", "/src/dipulllogo.svg",
   "/src/favicon/android-chrome-192x192.png",
   "/src/favicon/android-chrome-512x512.png",
   "/src/favicon/apple-touch-icon.png", "/src/favicon/favicon-32x32.png",
   "/src/favicon/favicon-16x16.png", "/src/favicon/favicon.ico"]

/-! ## Activate cleanup (service-worker.js lines 50-64)

The activate listener enumerates all existing cache names and deletes
every name not contained in `currentCaches = [STATIC_CACHE, RUNTIME_CACHE]`.
`activateCleanup keys` returns the cache names that remain afterwards. -/

def currentCaches : List String := [STATIC_CACHE, RUNTIME_CACHE]

def activateCleanup (keys : List String) : List String :=
  keys.filter (fun key => currentCaches.contains key)

/-! ## Metadata store (service-worker.js lines 244-297)

The metadata cache `dimicheck-timetable-meta` holds at most two entries:
the body stored at `/__timetable-meta__` (the dedup date string) and the
body stored at `/__class-context__` (a JSON object with grade and
section, written by `storeClassContext` and read back by
`getClassContext`; the JSON round trip is modelled by storing the pair
of integers directly). -/

structure MetaCache where
  timetableMeta : Option String
  classContext : Option (Int × Int)
deriving DecidableEq

def getLastTimetableDate (st : MetaCache) : Option String :=
  st.timetableMeta

def setLastTimetableDate (st : MetaCache) (dateKey : String) : MetaCache :=
  { st with timetableMeta := some dateKey }

def clearTimetableMeta (st : MetaCache) : MetaCache :=
  { st with timetableMeta := none }

def storeClassContext (st : MetaCache) (grade sectionNum : Int) : MetaCache :=
  if grade = 0 ∨ sectionNum = 0 then { st with classContext := none }
  else { st with classContext := some (grade, sectionNum) }

def getClassContext (st : MetaCache) : Option (Int × Int) :=
  match st.classContext with
  | none => none
  | some (g, s) => if g = 0 ∨ s = 0 then none else some (g, s)

/-! ## Dates (JS `Date` as used by the worker)

A trigger instant is modelled at minute granularity: `epochMin` is the
number of minutes since the Unix epoch (UTC) and `tzOffsetMin` is the
local-time offset in minutes (positive east of UTC), so local civil time
reads off `epochMin + tzOffsetMin`. `getDay`/`getHours`/`setHours` in
the source operate on local time; `toISOString` on UTC. -/

structure SWDate where
  epochMin : Int
  tzOffsetMin : Int
deriving DecidableEq

def SWDate.localMin (d : SWDate) : Int := d.epochMin + d.tzOffsetMin

def SWDate.localDayNumber (d : SWDate) : Int := Int.fdiv d.localMin 1440

def SWDate.minuteOfDay (d : SWDate) : Int := Int.emod d.localMin 1440

/-- JS `Date.prototype.getDay` (0 = Sunday); day 0 of the epoch was a
Thursday. -/
def SWDate.getDay (d : SWDate) : Int := Int.emod (4 + d.localDayNumber) 7

def SWDate.getHours (d : SWDate) : Int := Int.fdiv d.minuteOfDay 60

def SWDate.utcDayNumber (d : SWDate) : Int := Int.fdiv d.epochMin 1440

/-- service-worker.js lines 299-302. -/
def isWeekday (d : SWDate) : Bool := 1 ≤ d.getDay && d.getDay ≤ 5

/-- Civil date (year, month, day) of a day number counted from
1970-01-01, the standard days-to-civil conversion. -/
def civilFromDays (z0 : Int) : Int × Int × Int :=
  let z := z0 + 719468
  let era := Int.fdiv z 146097
  let doe := z - era * 146097
  let yoe := Int.tdiv (doe - Int.tdiv doe 1460 + Int.tdiv doe 36524 - Int.tdiv doe 146096) 365
  let y := yoe + era * 400
  let doy := doe - (365 * yoe + Int.tdiv yoe 4 - Int.tdiv yoe 100)
  let mp := Int.tdiv (5 * doy + 2) 153
  let d := doy - Int.tdiv (153 * mp + 2) 5 + 1
  let m := mp + (if mp < 10 then 3 else -9)
  (y + (if m ≤ 2 then 1 else 0), m, d)

def pad2 (n : Int) : String :=
  if n < 10 then "0" ++ toString n else toString n

def isoDateOfDay (day : Int) : String :=
  let c := civilFromDays day
  toString c.1 ++ "-" ++ pad2 c.2.1 ++ "-" ++ pad2 c.2.2

/-- `now.toISOString().slice(0, 10)` (service-worker.js line 216):
the calendar date of the instant in UTC, as `YYYY-MM-DD`. -/
def SWDate.dateKey (d : SWDate) : String := isoDateOfDay d.utcDayNumber

/-! ## Notification trigger (service-worker.js lines 202-242)

`triggerTimetableNotification` re-evaluated as a pure state transition.
The inputs beyond the metadata store are the trigger instant, the line
list produced by `fetchTodayTimetable`, and whether
`registration.showNotification` resolves (`displayOk`; a rejection is
caught and logged, which is outside the state model). `shownBody` is the
body passed to `showNotification` when the guards allow the call;
`notified` records whether a notification was actually displayed. -/

def genericBody : String := "오늘 일정을 확인해보세요."

/-- `timetableLines.length ? timetableLines.join('\n') : generic`
(service-worker.js line 231). -/
def timetableBody (timetableLines : List String) : String :=
  if timetableLines.length ≠ 0 then String.intercalate "\n" timetableLines
  else genericBody

structure TriggerOut where
  notified : Bool
  shownBody : Option String
  state : MetaCache
deriving DecidableEq

def triggerTimetableNotification (st : MetaCache) (now : SWDate)
    (timetableLines : List String) (displayOk : Bool) : TriggerOut :=
  if ¬ (isWeekday now = true) then ⟨false, none, st⟩
  else if 12 ≤ now.getHours then ⟨false, none, st⟩
  else if now.minuteOfDay < 390 then ⟨false, none, st⟩
  else if getLastTimetableDate st = some now.dateKey then ⟨false, none, st⟩
  else
    match getClassContext st with
    | none => ⟨false, none, st⟩
    | some _ =>
      if displayOk then
        ⟨true, some (timetableBody timetableLines),
         setLastTimetableDate st now.dateKey⟩
      else ⟨false, some (timetableBody timetableLines), st⟩

/-! ## Timetable fetch and formatting (service-worker.js lines 311-365)

JSON field values are modelled by `JsVal` (strings and integer
numbers, which covers the NEIS payload shapes the code reads);
`JsVal.truthy` is JS truthiness, `JsVal.toNumber` is `Number(...)` on
such values (`none` standing for `NaN`), `JsVal.toText` is template
interpolation. -/

inductive JsVal where
  | str (s : String)
  | num (n : Int)
deriving DecidableEq

def JsVal.truthy : JsVal → Bool
  | .str s => s ≠ ""
  | .num n => n ≠ 0

def JsVal.toNumber : JsVal → Option Int
  | .str s => s.toInt?
  | .num n => some n

def JsVal.toText : JsVal → String
  | .str s => s
  | .num n => toString n

/-- Value of a JS `a || b || ...` chain over possibly-missing fields:
the first truthy operand, `none` when every operand is falsy or
missing. -/
def firstTruthy : List (Option JsVal) → Option JsVal
  | [] => none
  | none :: rest => firstTruthy rest
  | some v :: rest => if v.truthy then some v else firstTruthy rest

/-- One row of the NEIS `hisTimetable` response; every field the code
reads, each possibly absent. -/
structure NeisRow where
  PERIO : Option JsVal := none
  PERIOD : Option JsVal := none
  ITRT_CNTNTSEQ : Option JsVal := none
  PERIOD_NM : Option JsVal := none
  ITRT_CNTNT : Option JsVal := none
  SUBJECT : Option JsVal := none
  SUB_NM : Option JsVal := none
  CONT : Option JsVal := none
  CONTNT : Option JsVal := none
deriving DecidableEq

/-- service-worker.js lines 311-320: first truthy subject field,
coerced to text, else the empty string. -/
def normalizeSubject (row : NeisRow) : String :=
  match firstTruthy [row.ITRT_CNTNT, row.SUBJECT, row.SUB_NM, row.CONT, row.CONTNT] with
  | some v => v.toText
  | none => ""

/-- `Number(row?.PERIO || row?.PERIOD || row?.ITRT_CNTNTSEQ || row?.PERIOD_NM) || null`
(service-worker.js line 347): `none` both when every field is falsy or
missing and when the coerced number is `NaN` or `0`. -/
def rowPeriod (row : NeisRow) : Option Int :=
  match firstTruthy [row.PERIO, row.PERIOD, row.ITRT_CNTNTSEQ, row.PERIOD_NM] with
  | none => none
  | some v =>
    match v.toNumber with
    | none => none
    | some n => if n = 0 then none else some n

/-- The `{period, subject}` objects built by the `.map` on line 346. -/
structure TItem where
  period : Option Int
  subject : String
deriving DecidableEq

def toTItem (row : NeisRow) : TItem := ⟨rowPeriod row, normalizeSubject row⟩

/-- The comparator passed to `.sort` (service-worker.js lines 351-355). -/
def timetableCompare (a b : TItem) : Int :=
  match a.period, b.period with
  | none, _ => 1
  | some _, none => -1
  | some m, some n => m - n

/-- Sort key realised by the comparator: a missing period number sorts
as plus infinity. -/
def pKey (it : TItem) : WithTop Int :=
  match it.period with
  | none => ⊤
  | some n => (n : WithTop Int)

/-- The total preorder a stable JS engine sort realises for
`timetableCompare`: element `a` may stay in front of element `b`
exactly when the comparator does not demand the swap, i.e. when
`timetableCompare b a ≥ 0`. -/
def periodLe (a b : TItem) : Prop := pKey a ≤ pKey b

instance : DecidableRel periodLe :=
  fun a b => inferInstanceAs (Decidable (pKey a ≤ pKey b))

instance : IsTotal TItem periodLe := ⟨fun a b => le_total (pKey a) (pKey b)⟩

instance : IsTrans TItem periodLe := ⟨fun _ _ _ h h2 => le_trans h h2⟩

/-- `sorted.map((item, index) => ...)` (service-worker.js lines 357-360),
carrying the running index. -/
def fmtTItem (it : TItem) (i : Nat) : String :=
  match it.period with
  | some n => if n = 0 then toString (i + 1) ++ "교시: " ++ it.subject
              else toString n ++ "교시: " ++ it.subject
  | none => toString (i + 1) ++ "교시: " ++ it.subject

def formatTimetableLines : List TItem → Nat → List String
  | [], _ => []
  | it :: rest, i => fmtTItem it i :: formatTimetableLines rest (i + 1)

/-- One entry of the `hisTimetable` array; `row` is `some` when the
`row` field is an array. -/
structure NeisPart where
  row : Option (List NeisRow) := none
deriving DecidableEq

/-- Parsed JSON body of the NEIS response; `hisTimetable` is `some`
when that field is an array. -/
structure NeisBody where
  hisTimetable : Option (List NeisPart) := none
deriving DecidableEq

/-- Outcome of the NEIS fetch: the network rejected, the response had a
non-ok status (the code throws and catches it), the JSON parse threw,
or a parsed body. -/
inductive NeisFetch where
  | netError
  | httpError (status : Nat)
  | jsonError
  | ok (body : NeisBody)
deriving DecidableEq

/-- `data?.hisTimetable` guard plus
`tables.find((part) => Array.isArray(part.row))?.row || []`
(service-worker.js lines 340-344). -/
def parseTimetableRows (body : NeisBody) : List NeisRow :=
  match body.hisTimetable with
  | none => []
  | some tables =>
    match tables.find? (fun part => part.row.isSome) with
    | some part => part.row.getD []
    | none => []

/-- The map/filter/sort/format pipeline of service-worker.js lines
345-360. `List.insertionSort periodLe` is the stable sort by the
comparator-induced preorder that the engine sort performs here. -/
def timetableLinesOfRows (rows : List NeisRow) : List String :=
  let items := (rows.map toTItem).filter (fun it => it.subject ≠ "")
  formatTimetableLines (items.insertionSort periodLe) 0

/-- service-worker.js lines 322-365: every failure path is caught and
returns the empty line list. -/
def fetchTodayTimetable : NeisFetch → List String
  | .ok body => timetableLinesOfRows (parseTimetableRows body)
  | _ => []

/-- Rows whose period number resolved to `null`. -/
def isNullPeriod (it : TItem) : Bool := it.period.isNone

/-- The first row of the worked example:
`{PERIO: 2, ITRT_CNTNT: "수학"}`. -/
def exRow1 : NeisRow := { PERIO := some (.num 2), ITRT_CNTNT := some (.str "수학") }

/-- The second row of the worked example:
`{PERIO: 1, SUBJECT: "국어"}`. -/
def exRow2 : NeisRow := { PERIO := some (.num 1), SUBJECT := some (.str "국어") }

/-- The worked example response body
`{hisTimetable: [{row: [exRow1, exRow2]}]}`. -/
def exBody : NeisBody := ⟨some [⟨some [exRow1, exRow2]⟩]⟩

/-- An empty or malformed NEIS response: the fetch rejected, the
response status was not ok (the code throws on it), the JSON parse
threw, or the body parses to no timetable rows. -/
def emptyOrMalformed : NeisFetch → Bool
  | .netError => true
  | .httpError _ => true
  | .jsonError => true
  | .ok body => (parseTimetableRows body).isEmpty

/-! ## Fetch routing (service-worker.js lines 66-162) -/

structure SWResponse where
  status : Nat
deriving DecidableEq

/-- `Response.ok`: status in the range 200-299. -/
def SWResponse.okStatus (r : SWResponse) : Bool :=
  200 ≤ r.status && r.status < 300

structure CacheState where
  staticEntries : List (String × SWResponse)
  runtimeEntries : List (String × SWResponse)
deriving DecidableEq

def lookupEntries (l : List (String × SWResponse)) (url : String) : Option SWResponse :=
  match l.find? (fun e => e.1 = url) with
  | some e => some e.2
  | none => none

/-- `caches.match(url)`: search the stores in creation order, static
store first. -/
def cachesMatch (cs : CacheState) (url : String) : Option SWResponse :=
  match lookupEntries cs.staticEntries url with
  | some r => some r
  | none => lookupEntries cs.runtimeEntries url

/-- `runtime.put(request, response)`: overwrite the entry for that URL. -/
def putRuntime (cs : CacheState) (url : String) (r : SWResponse) : CacheState :=
  { cs with runtimeEntries := (url, r) :: cs.runtimeEntries.filter (fun e => e.1 ≠ url) }

/-- Cache contents right after a successful install (service-worker.js
lines 43-48): the static store holds every URL of the precache
manifest, the runtime store is empty. -/
def precacheResponse : SWResponse := ⟨200⟩

def installState : CacheState :=
  ⟨PRECACHE_URLS.map (fun u => (u, precacheResponse)), []⟩

inductive NetOutcome where
  | ok (r : SWResponse)
  | fail
deriving DecidableEq

/-- What `handleNavigationRequest` resolves to. -/
inductive ServedFrom where
  | network (r : SWResponse)
  | cache (r : SWResponse)
  | errorOut
deriving DecidableEq

structure NavResult where
  served : ServedFrom
  cs : CacheState
deriving DecidableEq

/-- service-worker.js lines 104-123. -/
def handleNavigationRequest (net : NetOutcome) (cs : CacheState) (url : String) : NavResult :=
  match net with
  | .ok r =>
    if r.okStatus = true ∧ r.status ≠ 206 then ⟨.network r, putRuntime cs url r⟩
    else ⟨.network r, cs⟩
  | .fail =>
    match cachesMatch cs url with
    | some cached => ⟨.cache cached, cs⟩
    | none =>
      match cachesMatch cs "/index.html" with
      | some fallback => ⟨.cache fallback, cs⟩
      | none => ⟨.errorOut, cs⟩

/-- The request fields the fetch listener inspects
(service-worker.js lines 66-102). -/
structure SWRequest where
  method : String
  sameOrigin : Bool
  pathname : String
  navigationMode : Bool
deriving DecidableEq

inductive RouteChoice where
  | passThrough
  | apiNetworkFirst
  | navigation
  | asset
deriving DecidableEq

def isApiPath (p : String) : Bool :=
  "/api/".data.isPrefixOf p.data || "/auth/".data.isPrefixOf p.data || p = "/me"

/-- The dispatch order of the fetch listener. -/
def routeRequest (rq : SWRequest) : RouteChoice :=
  if rq.method ≠ "GET" then .passThrough
  else if rq.sameOrigin && isApiPath rq.pathname then .apiNetworkFirst
  else if !rq.sameOrigin then .passThrough
  else if rq.navigationMode then .navigation
  else .asset

inductive ApiResult where
  | network (r : SWResponse)
  | cache (r : SWResponse)
  | errorOut
deriving DecidableEq

/-- service-worker.js lines 80-88: `fetch(request).catch(...)` with a
cache fallback that throws when empty. -/
def apiNetworkFirstStrategy (net : NetOutcome) (cached : Option SWResponse) : ApiResult :=
  match net with
  | .ok r => .network r
  | .fail =>
    match cached with
    | some c => .cache c
    | none => .errorOut

/-! ## Helper lemmas about the notification trigger -/

theorem trigger_guard_weekend (st : MetaCache) (now : SWDate)
    (lines : List String) (d : Bool) (h : isWeekday now = false) :
    triggerTimetableNotification st now lines d = ⟨false, none, st⟩ := by
  simp [triggerTimetableNotification, h]

theorem trigger_guard_noon (st : MetaCache) (now : SWDate)
    (lines : List String) (d : Bool) (h : 12 ≤ now.getHours) :
    triggerTimetableNotification st now lines d = ⟨false, none, st⟩ := by
  unfold triggerTimetableNotification
  by_cases hw : isWeekday now = true
  · simp [hw, h]
  · simp [hw]

theorem trigger_guard_early (st : MetaCache) (now : SWDate)
    (lines : List String) (d : Bool) (h : now.minuteOfDay < 390) :
    triggerTimetableNotification st now lines d = ⟨false, none, st⟩ := by
  unfold triggerTimetableNotification
  by_cases h1 : isWeekday now = true
  · by_cases h2 : 12 ≤ now.getHours
    · simp [h1, h2]
    · simp [h1, h2, h]
  · simp [h1]

theorem trigger_dedup_hit (st : MetaCache) (now : SWDate)
    (lines : List String) (d : Bool)
    (h : st.timetableMeta = some now.dateKey) :
    triggerTimetableNotification st now lines d = ⟨false, none, st⟩ := by
  unfold triggerTimetableNotification getLastTimetableDate
  by_cases h1 : isWeekday now = true
  · by_cases h2 : 12 ≤ now.getHours
    · simp [h1, h2]
    · by_cases h3 : now.minuteOfDay < 390
      · simp [h1, h2, h3]
      · simp [h1, h2, h3, h]
  · simp [h1]

theorem trigger_guard_noctx (st : MetaCache) (now : SWDate)
    (lines : List String) (d : Bool) (h : getClassContext st = none) :
    triggerTimetableNotification st now lines d = ⟨false, none, st⟩ := by
  unfold triggerTimetableNotification
  by_cases h1 : isWeekday now = true
  · by_cases h2 : 12 ≤ now.getHours
    · simp [h1, h2]
    · by_cases h3 : now.minuteOfDay < 390
      · simp [h1, h2, h3]
      · by_cases h4 : getLastTimetableDate st = some now.dateKey
        · simp [h1, h2, h3, h4]
        · simp [h1, h2, h3, h4, h]
  · simp [h1]

theorem trigger_success_of_ctx (st : MetaCache) (now : SWDate)
    (lines : List String) (d : Bool)
    (hwk : isWeekday now = true) (hnoon : ¬ 12 ≤ now.getHours)
    (hearly : ¬ now.minuteOfDay < 390)
    (hded : ¬ st.timetableMeta = some now.dateKey)
    (p : Int × Int) (hctx : getClassContext st = some p) :
    triggerTimetableNotification st now lines d
      = (if d then
          ⟨true, some (timetableBody lines), setLastTimetableDate st now.dateKey⟩
         else ⟨false, some (timetableBody lines), st⟩) := by
  unfold triggerTimetableNotification
  rw [if_neg (by simp [hwk]), if_neg hnoon, if_neg hearly,
    if_neg (show ¬ getLastTimetableDate st = some now.dateKey from hded), hctx]

theorem trigger_eligible (st : MetaCache) (now : SWDate)
    (lines : List String) (d : Bool)
    (hwk : isWeekday now = true) (hnoon : ¬ 12 ≤ now.getHours)
    (hearly : ¬ now.minuteOfDay < 390)
    (hded : ¬ st.timetableMeta = some now.dateKey)
    (g s : Int) (hctx : st.classContext = some (g, s))
    (hg : ¬ g = 0) (hs : ¬ s = 0) :
    triggerTimetableNotification st now lines d
      = (if d then
          ⟨true, some (timetableBody lines), setLastTimetableDate st now.dateKey⟩
         else ⟨false, some (timetableBody lines), st⟩) :=
  trigger_success_of_ctx st now lines d hwk hnoon hearly hded (g, s)
    (by simp [getClassContext, hctx, hg, hs])

theorem trigger_of_notified (st : MetaCache) (now : SWDate)
    (lines : List String)
    (h : (triggerTimetableNotification st now lines true).notified = true)
    (d : Bool) :
    triggerTimetableNotification st now lines d
      = (if d then
          ⟨true, some (timetableBody lines), setLastTimetableDate st now.dateKey⟩
         else ⟨false, some (timetableBody lines), st⟩) := by
  by_cases hwk : isWeekday now = true
  · by_cases hnoon : 12 ≤ now.getHours
    · rw [trigger_guard_noon st now lines true hnoon] at h
      simp at h
    · by_cases hearly : now.minuteOfDay < 390
      · rw [trigger_guard_early st now lines true hearly] at h
        simp at h
      · by_cases hded : st.timetableMeta = some now.dateKey
        · rw [trigger_dedup_hit st now lines true hded] at h
          simp at h
        · rcases hctx : getClassContext st with _ | p
          · rw [trigger_guard_noctx st now lines true hctx] at h
            simp at h
          · exact trigger_success_of_ctx st now lines d hwk hnoon hearly hded p hctx
  · rw [trigger_guard_weekend st now lines true (by simpa using hwk)] at h
    simp at h

/-! ## Helper lemmas about the stable period sort -/

theorem filter_orderedInsert_of_not_null (x : TItem) (l : List TItem)
    (hx : isNullPeriod x = false) :
    (l.orderedInsert periodLe x).filter isNullPeriod
      = l.filter isNullPeriod := by
  rw [List.orderedInsert_eq_take_drop, List.filter_append,
    List.filter_cons_of_neg (by simp [hx]), ← List.filter_append,
    List.takeWhile_append_dropWhile]

theorem filter_orderedInsert_of_null (x : TItem) (l : List TItem)
    (hx : isNullPeriod x = true) :
    (l.orderedInsert periodLe x).filter isNullPeriod
      = x :: l.filter isNullPeriod := by
  have hxkey : pKey x = ⊤ := by
    unfold pKey
    unfold isNullPeriod at hx
    rcases h : x.period with _ | n
    · rfl
    · rw [h] at hx
      simp at hx
  have htake : (l.takeWhile fun b => decide ¬ periodLe x b).filter isNullPeriod
      = [] := by
    rw [List.filter_eq_nil_iff]
    intro a ha
    have hpa := List.mem_takeWhile_imp ha
    simp only [decide_eq_true_eq] at hpa
    intro hnull
    apply hpa
    unfold periodLe
    rw [hxkey]
    unfold isNullPeriod at hnull
    rcases h : a.period with _ | n
    · unfold pKey
      rw [h]
    · rw [h] at hnull
      simp at hnull
  have hdrop : l.filter isNullPeriod
      = (l.dropWhile fun b => decide ¬ periodLe x b).filter isNullPeriod := by
    conv_lhs => rw [← List.takeWhile_append_dropWhile
      (fun b => decide ¬ periodLe x b) l]
    rw [List.filter_append, htake, List.nil_append]
  rw [List.orderedInsert_eq_take_drop, List.filter_append, htake,
    List.nil_append, List.filter_cons_of_pos hx, hdrop]

theorem filter_insertionSort_null (l : List TItem) :
    (l.insertionSort periodLe).filter isNullPeriod
      = l.filter isNullPeriod := by
  induction l with
  | nil => rfl
  | cons a l ih =>
    rw [List.insertionSort]
    by_cases ha : isNullPeriod a = true
    · rw [filter_orderedInsert_of_null a _ ha, ih,
        List.filter_cons_of_pos ha]
    · rw [filter_orderedInsert_of_not_null a _ (by simpa using ha), ih,
        List.filter_cons_of_neg (by simpa using ha)]

theorem periodLe_iff_compare (a b : TItem) :
    periodLe a b ↔ 0 ≤ timetableCompare b a := by
  unfold periodLe pKey timetableCompare
  rcases ha : a.period with _ | m <;> rcases hb : b.period with _ | n <;> simp

/-! ## Claim theorems -/

/-- C1: the activate cleanup deletes every named cache store whose name
is not one of the two current-version store names. Contrary to the
claim, the metadata store is NOT exempt: `currentCaches` whitelists only
the static and runtime names, so when the three stores exist, activate
deletes `dimicheck-timetable-meta`; running the cleanup twice leaves
exactly the two current-version stores, with the metadata store gone
rather than untouched. -/
theorem activateCleanup_deletes_metadata_store :
    activateCleanup [STATIC_CACHE, RUNTIME_CACHE, TIMETABLE_META_CACHE]
      = [STATIC_CACHE, RUNTIME_CACHE]
    ∧ TIMETABLE_META_CACHE ∉
        activateCleanup [STATIC_CACHE, RUNTIME_CACHE, TIMETABLE_META_CACHE]
    ∧ activateCleanup (activateCleanup
        [STATIC_CACHE, RUNTIME_CACHE, TIMETABLE_META_CACHE])
      = [STATIC_CACHE, RUNTIME_CACHE] := by
  refine ⟨by decide, by decide, by decide⟩

/-- C2 counterexample: receiving `TIMETABLE_PREF_CHANGED` with
`enabled: false` runs `clearTimetableMeta`, which deletes only the
entry at `/__timetable-meta__`; on a store holding both entries the
class-context entry survives, so the claim that both entries are
removed is false. -/
theorem clearTimetableMeta_keeps_classContext :
    ¬ ((clearTimetableMeta ⟨some "2026-10-10", some (2, 3)⟩).timetableMeta = none
       ∧ (clearTimetableMeta ⟨some "2026-10-10", some (2, 3)⟩).classContext = none) := by
  decide

/-- C2 amended: receiving `TIMETABLE_PREF_CHANGED` with
`enabled: false` clears exactly the last-notification-date dedup entry
of the metadata store; the stored class-context entry is left
unchanged. -/
theorem clearTimetableMeta_spec (st : MetaCache) :
    (clearTimetableMeta st).timetableMeta = none
    ∧ (clearTimetableMeta st).classContext = st.classContext :=
  ⟨rfl, rfl⟩

/-- C6: on navigation network failure the router serves the cached
response for the exact URL when one exists (here a precached page), but
the shell fallback is looked up under `/index.html`, a URL the precache
manifest does not contain (the manifest precaches the shell under `/`);
right after a successful install, an offline navigation to a
non-precached URL therefore propagates the error instead of serving the
shell, contrary to the claim. -/
theorem navigation_offline_shell_fallback_missing :
    (handleNavigationRequest .fail installState "/schoollife.html").served
      = .cache precacheResponse
    ∧ cachesMatch installState "/" = some precacheResponse
    ∧ "/index.html" ∉ PRECACHE_URLS
    ∧ cachesMatch installState "/index.html" = none
    ∧ (handleNavigationRequest .fail installState "/news.html").served
      = .errorOut := by
  refine ⟨by decide, by decide, by decide, by decide, by decide⟩

/-- C7: for every navigation request, the runtime cache is written
exactly when the network response is successful (ok) and its status is
not 206; in particular a 206 response leaves the entire cache state
unchanged. -/
theorem navigation_never_caches_partial (cs : CacheState) (url : String)
    (r : SWResponse) :
    (handleNavigationRequest (.ok r) cs url).cs
      = (if r.okStatus = true ∧ r.status ≠ 206 then putRuntime cs url r else cs)
    ∧ (handleNavigationRequest (.ok ⟨206⟩) cs url).cs = cs := by
  constructor
  · by_cases h : r.okStatus = true ∧ r.status ≠ 206
    · simp [handleNavigationRequest, h]
    · simp [handleNavigationRequest, h]
  · rfl

/-- C8: every same-origin GET request whose path starts with `/api/` or
`/auth/` or equals `/me` is routed to the network-first API strategy,
which returns any resolved network response in preference to the cache,
consults the cache only when the network fails, and surfaces an error
when the cache is also empty. -/
theorem api_network_first_spec (rq : SWRequest)
    (hm : rq.method = "GET") (ho : rq.sameOrigin = true)
    (hp : isApiPath rq.pathname = true) :
    routeRequest rq = .apiNetworkFirst
    ∧ (∀ (r : SWResponse) (cached : Option SWResponse),
        apiNetworkFirstStrategy (.ok r) cached = .network r)
    ∧ (∀ c : SWResponse, apiNetworkFirstStrategy .fail (some c) = .cache c)
    ∧ apiNetworkFirstStrategy .fail none = .errorOut := by
  refine ⟨?_, fun r cached => rfl, fun c => rfl, rfl⟩
  simp [routeRequest, hm, ho, hp]

/-- C8 witness: the API routing and strategy evaluated on a concrete
same-origin GET request for `/api/status`, with a status-500 network
response preferred over a cached status-200 entry. -/
theorem api_network_first_spec_witness :
    routeRequest ⟨"GET", true, "/api/status", false⟩ = .apiNetworkFirst
    ∧ apiNetworkFirstStrategy (.ok ⟨500⟩) (some ⟨200⟩) = .network ⟨500⟩
    ∧ apiNetworkFirstStrategy .fail (some ⟨200⟩) = .cache ⟨200⟩
    ∧ apiNetworkFirstStrategy .fail none = .errorOut := by
  have h := api_network_first_spec ⟨"GET", true, "/api/status", false⟩ rfl rfl (by decide)
  exact ⟨h.1, h.2.1 ⟨500⟩ (some ⟨200⟩), h.2.2.1 ⟨200⟩, h.2.2.2⟩

/-- C3: on a local weekday at 07:00 local time with stored class
context (2, 3) and no dedup entry matching the date key of the instant,
the trigger shows exactly one notification and sets the dedup date to
the ISO date of the instant (per C5 that ISO date is the UTC calendar
date); an immediately repeated trigger shows zero additional
notifications and leaves the state unchanged; on a weekend day, or at
or after 12:00 local time, a trigger shows zero notifications and
changes nothing regardless of dedup state. -/
theorem trigger_weekday_morning_exactly_once (st : MetaCache) (now : SWDate)
    (lines : List String)
    (hwk : isWeekday now = true) (hh : now.minuteOfDay = 420)
    (hctx : st.classContext = some (2, 3))
    (hded : ¬ st.timetableMeta = some now.dateKey) :
    (triggerTimetableNotification st now lines true).notified = true
    ∧ (triggerTimetableNotification st now lines true).state.timetableMeta
        = some now.dateKey
    ∧ (triggerTimetableNotification
        (triggerTimetableNotification st now lines true).state now lines
        true).notified = false
    ∧ (triggerTimetableNotification
        (triggerTimetableNotification st now lines true).state now lines
        true).state
      = (triggerTimetableNotification st now lines true).state
    ∧ (∀ (st2 : MetaCache) (now2 : SWDate) (lines2 : List String) (d2 : Bool),
        isWeekday now2 = false →
        (triggerTimetableNotification st2 now2 lines2 d2).notified = false
        ∧ (triggerTimetableNotification st2 now2 lines2 d2).state = st2)
    ∧ (∀ (st2 : MetaCache) (now2 : SWDate) (lines2 : List String) (d2 : Bool),
        12 ≤ now2.getHours →
        (triggerTimetableNotification st2 now2 lines2 d2).notified = false
        ∧ (triggerTimetableNotification st2 now2 lines2 d2).state = st2) := by
  have hnoon : ¬ 12 ≤ now.getHours := by
    rw [SWDate.getHours, hh]; decide
  have hearly : ¬ now.minuteOfDay < 390 := by rw [hh]; decide
  have heq := trigger_eligible st now lines true hwk hnoon hearly hded 2 3 hctx
    (by decide) (by decide)
  have hnot : (triggerTimetableNotification st now lines true).notified = true := by
    rw [heq]; rfl
  have hstate : (triggerTimetableNotification st now lines true).state
      = setLastTimetableDate st now.dateKey := by
    rw [heq]; rfl
  have hhit := trigger_dedup_hit (setLastTimetableDate st now.dateKey) now lines
    true rfl
  refine ⟨hnot, by rw [hstate]; rfl, by rw [hstate, hhit], by rw [hstate, hhit], ?_, ?_⟩
  · intro st2 now2 lines2 d2 h2
    rw [trigger_guard_weekend st2 now2 lines2 d2 h2]
    exact ⟨rfl, rfl⟩
  · intro st2 now2 lines2 d2 h2
    rw [trigger_guard_noon st2 now2 lines2 d2 h2]
    exact ⟨rfl, rfl⟩

/-- C3 witness: Monday 1970-01-05 at 07:00 (UTC instant, zero offset)
with class context (2, 3) and an empty store fires once and dedups the
repeat; a Sunday-morning instant and a 13:00 weekday instant fire
nothing. -/
theorem trigger_weekday_morning_exactly_once_witness :
    (triggerTimetableNotification ⟨none, some (2, 3)⟩ ⟨6180, 0⟩
      ["1교시: 국어"] true).notified = true
    ∧ (triggerTimetableNotification ⟨none, some (2, 3)⟩ ⟨6180, 0⟩
        ["1교시: 국어"] true).state.timetableMeta
      = some (SWDate.dateKey ⟨6180, 0⟩)
    ∧ (triggerTimetableNotification
        (triggerTimetableNotification ⟨none, some (2, 3)⟩ ⟨6180, 0⟩
          ["1교시: 국어"] true).state ⟨6180, 0⟩ ["1교시: 국어"] true).notified
      = false
    ∧ (triggerTimetableNotification ⟨some "1970-01-05", some (2, 3)⟩
        ⟨4740, 0⟩ [] true).notified = false
    ∧ (triggerTimetableNotification ⟨none, some (2, 3)⟩
        ⟨6560, 0⟩ [] true).notified = false := by
  have h := trigger_weekday_morning_exactly_once ⟨none, some (2, 3)⟩ ⟨6180, 0⟩
    ["1교시: 국어"] (by decide) (by decide) rfl (by decide)
  exact ⟨h.1, h.2.1, h.2.2.1,
    (h.2.2.2.2.1 ⟨some "1970-01-05", some (2, 3)⟩ ⟨4740, 0⟩ [] true (by decide)).1,
    (h.2.2.2.2.2 ⟨none, some (2, 3)⟩ ⟨6560, 0⟩ [] true (by decide)).1⟩

/-- C5: the dedup key compared and recorded by the trigger is the UTC
calendar date of the instant (the first ten characters of the ISO
timestamp), invariant under the local offset, while the weekday and
morning-window guards read local time; hence after a successful trigger
no further trigger on the same UTC date notifies, and with offset +540
(east of UTC) two triggers on the same local Monday morning at 07:00
and 10:00 local have different UTC dates and each shows a
notification. -/
theorem dedup_key_is_utc_date (st : MetaCache) (now now2 : SWDate)
    (lines lines2 : List String) (d2 : Bool)
    (hfired : (triggerTimetableNotification st now lines true).notified = true)
    (hsame : now2.dateKey = now.dateKey) :
    (triggerTimetableNotification
        (triggerTimetableNotification st now lines true).state
        now2 lines2 d2).notified = false
    ∧ (∀ e tz tz2 : Int, SWDate.dateKey ⟨e, tz⟩ = SWDate.dateKey ⟨e, tz2⟩)
    ∧ SWDate.dateKey ⟨5640, 540⟩ ≠ SWDate.dateKey ⟨5820, 540⟩
    ∧ SWDate.getDay ⟨5640, 540⟩ = 1 ∧ SWDate.getDay ⟨5820, 540⟩ = 1
    ∧ SWDate.getHours ⟨5640, 540⟩ = 7 ∧ SWDate.getHours ⟨5820, 540⟩ = 10
    ∧ (triggerTimetableNotification ⟨none, some (2, 3)⟩ ⟨5640, 540⟩
        [] true).notified = true
    ∧ (triggerTimetableNotification
        (triggerTimetableNotification ⟨none, some (2, 3)⟩ ⟨5640, 540⟩
          [] true).state ⟨5820, 540⟩ [] true).notified = true := by
  have hstate : (triggerTimetableNotification st now lines true).state
      = setLastTimetableDate st now.dateKey := by
    rw [trigger_of_notified st now lines hfired true]; rfl
  refine ⟨?_, fun e tz tz2 => rfl, by decide, by decide, by decide, by decide,
    by decide, by decide, by decide⟩
  rw [hstate, trigger_dedup_hit (setLastTimetableDate st now.dateKey) now2 lines2
    d2 (by simp [setLastTimetableDate, hsame])]

/-- C5 witness: one successful trigger followed by a second trigger at
the same instant (hence the same UTC date) notifies nothing. -/
theorem dedup_key_is_utc_date_witness :
    (triggerTimetableNotification
        (triggerTimetableNotification ⟨none, some (2, 3)⟩ ⟨6180, 0⟩ [] true).state
        ⟨6180, 0⟩ [] true).notified = false :=
  (dedup_key_is_utc_date ⟨none, some (2, 3)⟩ ⟨6180, 0⟩ ⟨6180, 0⟩ [] [] true
    (by decide) rfl).1

/-- C9: when displaying the notification fails (permission revoked),
nothing is shown and the metadata store is left unchanged — the dedup
date is not updated — so the same trigger, once display succeeds again,
still notifies; the logging of the failure is a console side effect
outside the state model. -/
theorem display_failure_keeps_state (st : MetaCache) (now : SWDate)
    (lines : List String)
    (helig : (triggerTimetableNotification st now lines true).notified = true) :
    (triggerTimetableNotification st now lines false).notified = false
    ∧ (triggerTimetableNotification st now lines false).state = st
    ∧ (triggerTimetableNotification
        (triggerTimetableNotification st now lines false).state
        now lines true).notified = true := by
  have h := trigger_of_notified st now lines helig false
  have hst : (triggerTimetableNotification st now lines false).state = st := by
    rw [h]; rfl
  exact ⟨by rw [h]; rfl, hst, by rw [hst]; exact helig⟩

/-- C9 witness: on the eligible Monday-morning instant, a failing
display leaves the store empty and the retry with a working display
notifies. -/
theorem display_failure_keeps_state_witness :
    (triggerTimetableNotification ⟨none, some (2, 3)⟩ ⟨6180, 0⟩ [] false).notified
      = false
    ∧ (triggerTimetableNotification ⟨none, some (2, 3)⟩ ⟨6180, 0⟩ [] false).state
      = ⟨none, some (2, 3)⟩
    ∧ (triggerTimetableNotification
        (triggerTimetableNotification ⟨none, some (2, 3)⟩ ⟨6180, 0⟩ [] false).state
        ⟨6180, 0⟩ [] true).notified = true :=
  display_failure_keeps_state ⟨none, some (2, 3)⟩ ⟨6180, 0⟩ [] (by decide)

/-- C10: for every empty or malformed NEIS response — a rejected fetch,
a non-ok HTTP status, a JSON parse failure, or a body that parses to no
rows — `fetchTodayTimetable` returns the empty line list instead of
throwing, and an otherwise-eligible trigger still notifies, its body
falling back to the generic 확인해보세요 message. -/
theorem malformed_fetch_generic_fallback (st : MetaCache) (now : SWDate)
    (resp : NeisFetch) (hbad : emptyOrMalformed resp = true)
    (helig : (triggerTimetableNotification st now [] true).notified = true) :
    fetchTodayTimetable resp = []
    ∧ (triggerTimetableNotification st now (fetchTodayTimetable resp)
        true).notified = true
    ∧ (triggerTimetableNotification st now (fetchTodayTimetable resp)
        true).shownBody = some genericBody := by
  have hempty : fetchTodayTimetable resp = [] := by
    cases resp with
    | netError => rfl
    | httpError s => rfl
    | jsonError => rfl
    | ok body =>
      have hrows : parseTimetableRows body = [] := by
        simpa [emptyOrMalformed, List.isEmpty_iff] using hbad
      rw [show fetchTodayTimetable (.ok body)
          = timetableLinesOfRows (parseTimetableRows body) from rfl, hrows]
      rfl
  have h := trigger_of_notified st now [] helig true
  refine ⟨hempty, ?_, ?_⟩
  · rw [hempty]; exact helig
  · rw [hempty, h]; rfl

/-- C10 witness: a JSON parse failure on the eligible Monday-morning
instant still produces a notification whose body is the generic
fallback message. -/
theorem malformed_fetch_generic_fallback_witness :
    fetchTodayTimetable .jsonError = []
    ∧ (triggerTimetableNotification ⟨none, some (2, 3)⟩ ⟨6180, 0⟩
        (fetchTodayTimetable .jsonError) true).notified = true
    ∧ (triggerTimetableNotification ⟨none, some (2, 3)⟩ ⟨6180, 0⟩
        (fetchTodayTimetable .jsonError) true).shownBody = some genericBody :=
  malformed_fetch_generic_fallback ⟨none, some (2, 3)⟩ ⟨6180, 0⟩ .jsonError rfl
    (by decide)

/-- C4: the formatter drops rows without a subject, stably sorts the
rest ascending by period number with period-less rows last (their
original relative order preserved, witnessed by the filter equation and
the sortedness and permutation facts for the insertion sort under the
comparator-induced total preorder `periodLe`), and formats each line as
period-number 교시: subject, using the 1-based output index when the
period number is absent; on the worked example the body is
1교시: 국어 newline 2교시: 수학. -/
theorem timetable_format_spec :
    fetchTodayTimetable (.ok exBody) = ["1교시: 국어", "2교시: 수학"]
    ∧ String.intercalate "\n" (fetchTodayTimetable (.ok exBody))
        = "1교시: 국어\n2교시: 수학"
    ∧ (∀ rows : List NeisRow,
        timetableLinesOfRows rows
          = formatTimetableLines
              (((rows.map toTItem).filter
                  (fun it => it.subject ≠ "")).insertionSort periodLe) 0)
    ∧ (∀ rows : List NeisRow,
        List.Perm
          (((rows.map toTItem).filter
              (fun it => it.subject ≠ "")).insertionSort periodLe)
          ((rows.map toTItem).filter (fun it => it.subject ≠ "")))
    ∧ (∀ rows : List NeisRow,
        List.Sorted periodLe
          (((rows.map toTItem).filter
              (fun it => it.subject ≠ "")).insertionSort periodLe))
    ∧ (∀ rows : List NeisRow,
        (((rows.map toTItem).filter
            (fun it => it.subject ≠ "")).insertionSort periodLe).filter
            isNullPeriod
          = ((rows.map toTItem).filter
              (fun it => it.subject ≠ "")).filter isNullPeriod)
    ∧ (∀ a b : TItem, periodLe a b ↔ 0 ≤ timetableCompare b a) :=
  ⟨by decide, by decide, fun rows => rfl,
   fun rows => List.perm_insertionSort periodLe _,
   fun rows => List.sorted_insertionSort periodLe _,
   fun rows => filter_insertionSort_null _,
   periodLe_iff_compare⟩

end DimiCheck
